import Mathlib

/-
Verification of the scenario-orchestration core of the sim_frontend repository.

This file gives a shallow embedding of the relevant Python modules:

  src/app/services/query_cache.py            (QueryCache)
  src/app/services/parallel_agent_caller.py  (ParallelAgentCaller)
  src/app/services/recommendation_generator.py (RecommendationGenerator)
  src/app/services/scenario_analyzer.py      (ScenarioAnalyzer)
  src/app/services/message_formatter.py      (MessageFormatter)
  src/app/core/scenario_schema.py            (pydantic message schemas)
  src/app/services/scenario_service.py       (ScenarioService)

Modelling conventions:
  - Python dicts (which preserve insertion order) are association lists
    `List (String × β)` with order-preserving insert/overwrite.
  - Wall-clock time (time.time()) is an explicit `Nat` parameter threaded
    through the cache operations; only the order structure of time matters
    to the code under verification.
  - The md5 cache key is modelled by the pre-hash content string
    "{domain}:{normalized_query}" itself (md5 is assumed collision-free on
    the inputs of interest, so the key function is injective exactly when
    the content strings differ).
  - External HTTP agent calls are oracles: a task outcome is either a
    returned result dict or a raised exception message.
  - pydantic validation of outbound messages is modelled explicitly where
    the code can feed it ill-typed values (a plain string where the schema
    requires a ScenarioCandidate object, or None where it requires str).
-/

namespace SimFrontend

/-! ## Python dict as an insertion-ordered association list -/

/-- Lookup of a key in a Python dict, first occurrence. -/
def dictFind {β : Type _} : List (String × β) → String → Option β
  | [], _ => none
  | (k, v) :: rest, key => if k = key then some v else dictFind rest key

/-- Python dict assignment: overwrite in place when the key is present
(keeping its position), append otherwise. -/
def dictInsert {β : Type _} : List (String × β) → String → β → List (String × β)
  | [], key, val => [(key, val)]
  | (k, v) :: rest, key, val =>
    if k = key then (k, val) :: rest else (k, v) :: dictInsert rest key val

/-- Python `del d[key]`: remove the (first) binding of a key. -/
def dictErase {β : Type _} : List (String × β) → String → List (String × β)
  | [], _ => []
  | (k, v) :: rest, key => if k = key then rest else (k, v) :: dictErase rest key

@[simp] theorem dictFind_nil {β : Type _} (key : String) :
    dictFind ([] : List (String × β)) key = none := rfl

@[simp] theorem dictFind_cons {β : Type _} (k : String) (v : β) (rest : List (String × β))
    (key : String) :
    dictFind ((k, v) :: rest) key = if k = key then some v else dictFind rest key := rfl

@[simp] theorem dictInsert_nil {β : Type _} (key : String) (val : β) :
    dictInsert ([] : List (String × β)) key val = [(key, val)] := rfl

@[simp] theorem dictInsert_cons {β : Type _} (k : String) (v : β) (rest : List (String × β))
    (key : String) (val : β) :
    dictInsert ((k, v) :: rest) key val =
      if k = key then (k, val) :: rest else (k, v) :: dictInsert rest key val := rfl

theorem dictFind_dictInsert_self {β : Type _} (l : List (String × β)) (key : String) (val : β) :
    dictFind (dictInsert l key val) key = some val := by
  induction l with
  | nil => simp
  | cons p rest ih =>
    obtain ⟨k, v⟩ := p
    by_cases hk : k = key
    · subst hk; simp
    · simp [hk, ih]

theorem dictFind_dictInsert_ne {β : Type _} (l : List (String × β)) (key k' : String) (val : β)
    (h : key ≠ k') : dictFind (dictInsert l key val) k' = dictFind l k' := by
  induction l with
  | nil => simp [h]
  | cons p rest ih =>
    obtain ⟨k, v⟩ := p
    by_cases hk : k = key
    · subst hk; simp [h]
    · simp only [dictInsert_cons, if_neg hk, dictFind_cons, ih]

theorem dictInsert_keys_of_absent {β : Type _} (l : List (String × β)) (key : String) (val : β)
    (h : dictFind l key = none) : dictInsert l key val = l ++ [(key, val)] := by
  induction l with
  | nil => simp
  | cons p rest ih =>
    obtain ⟨k, v⟩ := p
    simp only [dictFind_cons] at h
    by_cases hk : k = key
    · simp [hk] at h
    · simp only [dictInsert_cons, if_neg hk, List.cons_append, List.cons.injEq, true_and]
      exact ih (by simpa [hk] using h)

theorem dictInsert_length {β : Type _} (l : List (String × β)) (key : String) (val : β) :
    (dictInsert l key val).length =
      if (dictFind l key).isSome then l.length else l.length + 1 := by
  induction l with
  | nil => simp
  | cons p rest ih =>
    obtain ⟨k, v⟩ := p
    by_cases hk : k = key
    · simp [hk]
    · simp only [dictInsert_cons, if_neg hk, List.length_cons, dictFind_cons, ih]
      by_cases hf : (dictFind rest key).isSome <;> simp [hf]

theorem dictErase_length_of_present {β : Type _} (l : List (String × β)) (key : String)
    (h : (dictFind l key).isSome) : (dictErase l key).length + 1 = l.length := by
  induction l with
  | nil => simp at h
  | cons p rest ih =>
    obtain ⟨k, v⟩ := p
    by_cases hk : k = key
    · simp [dictErase, hk]
    · simp only [dictFind_cons, if_neg hk, Option.isSome] at h
      simp only [dictErase, if_neg hk, List.length_cons]
      have := ih (by simpa using h)
      omega

/-! ## Python substring and case helpers -/

/-- Python `needle in hay` on strings: substring containment. -/
def substrOf (needle hay : String) : Bool :=
  decide (needle.toList <:+: hay.toList)

/-- Python str.isupper(): at least one cased character and no lowercase
character (ASCII approximation, which covers every string the analyzer
can produce). -/
def pyIsUpper (s : String) : Bool :=
  s.toList.any (fun c => c.isAlpha) && s.toList.all (fun c => !c.isLower)

/-- Python str.lower() (ASCII case mapping). -/
def pyLower (s : String) : String := String.mk (s.toList.map Char.toLower)

/-- Python str.upper() (ASCII case mapping). -/
def pyUpper (s : String) : String := String.mk (s.toList.map Char.toUpper)

/-- Python str.strip(): remove leading and trailing whitespace. -/
def pyStrip (s : String) : String :=
  String.mk (((s.toList.dropWhile Char.isWhitespace).reverse.dropWhile Char.isWhitespace).reverse)

/-- Python str.replace for a nonempty pattern: replace every occurrence,
scanning left to right without overlap. The fuel is the input length
(enough, since each step consumes at least one character). -/
def pyReplaceAux (pat repl : List Char) : Nat → List Char → List Char
  | _, [] => []
  | 0, s => s
  | fuel + 1, c :: cs =>
    if pat.isPrefixOf (c :: cs) then
      repl ++ pyReplaceAux pat repl fuel ((c :: cs).drop pat.length)
    else
      c :: pyReplaceAux pat repl fuel cs

def pyReplace (s pat repl : String) : String :=
  String.mk (pyReplaceAux pat.toList repl.toList s.toList.length s.toList)

/-! ## QueryCache (src/app/services/query_cache.py)

`time.time()` is the explicit `now : Nat` argument of `qcGet`/`qcSet`.
The md5 digest of the key content is modelled by the content string itself
(see the header comment). -/

/-- One cached item, the dict literal built in QueryCache.set. -/
structure CacheEntry (α : Type _) where
  data : α
  expires_at : Nat
  created_at : Nat
  hits : Nat
  query : String
  domain : String
deriving Repr, DecidableEq

/-- The QueryCache object: its dict, ttl and max_size attributes. -/
structure QueryCache (α : Type _) where
  cache : List (String × CacheEntry α)
  ttl : Nat
  max_size : Nat
deriving Repr, DecidableEq

/-- QueryCache.__init__ (max_size is hardcoded to 100 there). -/
def mkQueryCache {α : Type _} (ttl_seconds : Nat) : QueryCache α :=
  { cache := [], ttl := ttl_seconds, max_size := 100 }

/-- QueryCache._generate_key: md5 of "{domain}:{normalized_query}", with the
normalization query.lower().strip(); modelled by the pre-hash content. -/
def genKey (query domain : String) : String :=
  domain ++ ":" ++ pyStrip (pyLower query)

/-- Python min(keys, key=created_at) over the remaining pairs, keeping the
first minimum; `best` carries the best key and its created_at so far. -/
def oldestAux {α : Type _} : String × Nat → List (String × CacheEntry α) → String
  | best, [] => best.1
  | best, (k, e) :: rest =>
    oldestAux (if e.created_at < best.2 then (k, e.created_at) else best) rest

/-- QueryCache._evict_oldest. -/
def evictOldest {α : Type _} : List (String × CacheEntry α) → List (String × CacheEntry α)
  | [] => []
  | (k, e) :: rest => dictErase ((k, e) :: rest) (oldestAux (k, e.created_at) rest)

/-- QueryCache.get: returns (value returned to the caller, cache afterwards).
A hit increments the hit counter in place; an expired entry is deleted. -/
def qcGet {α : Type _} (c : QueryCache α) (query domain : String) (now : Nat) :
    Option α × QueryCache α :=
  let key := genKey query domain
  match dictFind c.cache key with
  | none => (none, c)
  | some item =>
    if now > item.expires_at then
      (none, { c with cache := dictErase c.cache key })
    else
      (some item.data, { c with cache := dictInsert c.cache key { item with hits := item.hits + 1 } })

/-- QueryCache.set: evict-then-insert. The capacity check happens before the
key is even computed, so it fires also when the key is already cached. -/
def qcSet {α : Type _} (c : QueryCache α) (query domain : String) (data : α) (now : Nat) :
    QueryCache α :=
  let cache1 := if c.cache.length ≥ c.max_size then evictOldest c.cache else c.cache
  let key := genKey query domain
  { c with
    cache := dictInsert cache1 key
      { data := data, expires_at := now + c.ttl, created_at := now, hits := 0
        query := query, domain := domain } }

/-- A get or a set, with its wall-clock instant, for stating invariants over
arbitrary operation sequences. -/
inductive CacheOp (α : Type _) where
  | get (query domain : String) (now : Nat)
  | set (query domain : String) (data : α) (now : Nat)

def applyOp {α : Type _} (c : QueryCache α) : CacheOp α → QueryCache α
  | .get q d now => (qcGet c q d now).2
  | .set q d v now => qcSet c q d v now

def applyOps {α : Type _} (c : QueryCache α) (ops : List (CacheOp α)) : QueryCache α :=
  ops.foldl applyOp c

/-! ## Agent results and the parallel agent caller
(src/app/services/parallel_agent_caller.py)

The result dicts flowing through the caller always carry a "status" key and
a "result" key (success results also set it; create_error_response is always
called with result=None here); an "error" key is present exactly on error
results. `result = none` models the Python value None, `error = none` models
an absent "error" key. -/

/-- An agent result dict. -/
structure AgentResult where
  status : String
  result : Option String
  error : Option String
deriving Repr, DecidableEq

/-- src/app/utils/error_handlers.py create_error_response with the
result=None extra field used at every call site in the caller. -/
def create_error_response (error_msg : String) : AgentResult :=
  { status := "error", error := some error_msg, result := none }

/-- result.get("error", "") in _retry_on_failure. -/
def errText (r : AgentResult) : String := r.error.getD ""

/-- The retryability test of _retry_on_failure, verbatim:
"timed out" in error  or  "connect" in error.lower().
The first membership test is case-SENSITIVE in the source. -/
def isRetryableError (e : String) : Bool :=
  substrOf "timed out" e || substrOf "connect" (pyLower e)

/-- What one awaited call of the wrapped coroutine does: return a result
dict or raise an exception with a message. -/
inductive TaskOutcome where
  | ok (r : AgentResult)
  | exn (msg : String)

/-- Python str(x) for a variable that is a str or None. -/
def pyStrOfOpt : Option String → String
  | none => "None"
  | some s => s

/-- The observable behaviour of one _retry_on_failure run: the returned
dict, how many times the wrapped function was invoked, and the successive
asyncio.sleep delays. -/
structure RetryTrace where
  result : AgentResult
  attemptsMade : Nat
  delays : List Nat
deriving Repr, DecidableEq

/-- The body of the `for attempt in range(max_retries)` loop of
_retry_on_failure, from loop index `attempt` on; `remaining` is the number
of loop iterations left (maxR - attempt, so the loop runs exactly while
attempt < maxR); `f i` is the outcome of the i-th invocation of the wrapped
function. -/
def retryLoop (maxR d : Nat) (f : Nat → TaskOutcome) :
    Nat → Nat → Option String → RetryTrace
  | 0, attempt, lastError =>
    ⟨create_error_response
        ("Failed after " ++ toString maxR ++ " attempts: " ++ pyStrOfOpt lastError),
      attempt, []⟩
  | remaining + 1, attempt, _lastError =>
    match f attempt with
    | .ok r =>
      if r.status = "success" ∨ attempt = maxR - 1 then
        ⟨r, attempt + 1, []⟩
      else if isRetryableError (errText r) then
        let t := retryLoop maxR d f remaining (attempt + 1) (some (errText r))
        ⟨t.result, t.attemptsMade, d * 2 ^ attempt :: t.delays⟩
      else
        ⟨r, attempt + 1, []⟩
    | .exn m =>
      if attempt < maxR - 1 then
        let t := retryLoop maxR d f remaining (attempt + 1) (some m)
        ⟨t.result, t.attemptsMade, d * 2 ^ attempt :: t.delays⟩
      else
        ⟨create_error_response m, attempt + 1, []⟩

/-- ParallelAgentCaller._retry_on_failure (max_retries default 3,
retry_delay default 1). -/
def retryOnFailure (maxR d : Nat) (f : Nat → TaskOutcome) : RetryTrace :=
  retryLoop maxR d f maxR 0 none

/-- AgentQuery (src/app/core/scenario_schema.py). -/
structure AgentQuery where
  agent_type : String
  query : String
  sub_id : String
deriving Repr, DecidableEq

/-- The observable behaviour of call_agents: the results dict and the list
of input positions for which an agent-call coroutine (_call_sql_agent or
_call_tool_agent) was created at all. -/
structure CallAgentsOut where
  results : List (String × AgentResult)
  dispatched : List Nat
deriving Repr, DecidableEq

/-- What the i-th gathered task resolves to, given the per-position oracles
for the two real agent kinds. Unknown agent types never consult an oracle:
their task is _create_error_result, which cannot raise. -/
def taskResult (sqlO toolO : Nat → TaskOutcome) (i : Nat) (q : AgentQuery) : AgentResult :=
  if q.agent_type = "sqlagent" then
    match sqlO i with
    | .ok r => r
    | .exn m => create_error_response m
  else if q.agent_type = "toolagent" then
    match toolO i with
    | .ok r => r
    | .exn m => create_error_response m
  else
    create_error_response ("Unknown agent type: " ++ q.agent_type)

/-- ParallelAgentCaller.call_agents. asyncio.gather(*, return_exceptions=True)
is modelled by `taskResult` already converting a raised exception into
create_error_response(str(e)); the results dict is built by inserting in the
order of the input list. -/
def callAgents (sqlO toolO : Nat → TaskOutcome) (queries : List AgentQuery) : CallAgentsOut :=
  if queries.isEmpty then ⟨[], []⟩
  else
    { results :=
        (queries.enum).foldl
          (fun d p => dictInsert d p.2.sub_id (taskResult sqlO toolO p.1 p.2)) []
      dispatched :=
        (queries.enum).filterMap
          (fun p =>
            if p.2.agent_type = "sqlagent" ∨ p.2.agent_type = "toolagent" then some p.1
            else none) }

/-! ## ScenarioAnalyzer (src/app/services/scenario_analyzer.py)

The three regexes in the file are word-boundary searches; they are modelled
by direct character scanners (ASCII reading of \w, [A-Z], \d, which covers
the fixed keyword vocabulary and any ASCII query). -/

/-- A regex word character \w (ASCII approximation). -/
def wordChar (c : Char) : Bool := c.isAlphanum || c = '_'

/-- A word boundary holds before the current position, given the previous
character (none at the start of the string), for a pattern starting with a
word character. -/
def boundaryOk : Option Char → Bool
  | none => true
  | some c => !wordChar c

/-- The literal phrase matches at the head of `s` and is followed by a word
boundary (the phrase of every pattern ends in a word character). -/
def phraseAtHead : List Char → List Char → Bool
  | [], [] => true
  | [], c :: _ => !wordChar c
  | _ :: _, [] => false
  | p :: ps, c :: cs => p = c && phraseAtHead ps cs

/-- re.search of a \b...\b literal-phrase pattern: some position with a
boundary before it matches the phrase. -/
def searchWord (phrase : List Char) : Option Char → List Char → Bool
  | prev, [] => boundaryOk prev && phraseAtHead phrase []
  | prev, c :: cs =>
    (boundaryOk prev && phraseAtHead phrase (c :: cs)) || searchWord phrase (some c) cs

/-- re.search(r"\b<phrase>\b", s) for a phrase of word characters and
spaces. -/
def hasWordMatch (phrase : String) (s : String) : Bool :=
  searchWord phrase.toList none s.toList

/-- One attempted asset-code match at the current position:
uppercase-letter run (its length constrained by `lenOK`, maximal because the
next pattern character is a hyphen), a hyphen, a maximal digit run of length
at least 3, then a word boundary. Returns the matched text, the rest of the
input and the last matched character. -/
def tryAssetAt (lenOK : Nat → Bool) (s : List Char) :
    Option (String × List Char × Char) :=
  let letters := s.takeWhile Char.isUpper
  if lenOK letters.length then
    match s.drop letters.length with
    | '-' :: rest =>
      let digits := rest.takeWhile Char.isDigit
      if digits.length ≥ 3 then
        let remaining := rest.drop digits.length
        let okAfter := match remaining with
          | [] => true
          | c :: _ => !wordChar c
        if okAfter then
          some (String.mk (letters ++ '-' :: digits), remaining, digits.getLast?.getD '0')
        else none
      else none
    | _ => none
  else none

/-- re.findall of an asset-code pattern: scan left to right, trying a match
at every word-boundary position, resuming after each match (fuel is the
input length, enough since each step consumes at least one character). -/
def scanAssetsAux (lenOK : Nat → Bool) : Nat → Option Char → List Char → List String
  | 0, _, _ => []
  | _ + 1, _, [] => []
  | fuel + 1, prev, c :: cs =>
    match (if boundaryOk prev then tryAssetAt lenOK (c :: cs) else none) with
    | some (m, rest, lastc) => m :: scanAssetsAux lenOK fuel (some lastc) rest
    | none => scanAssetsAux lenOK fuel (some c) cs

def scanAssets (lenOK : Nat → Bool) (s : String) : List String :=
  scanAssetsAux lenOK s.toList.length none s.toList

/-- ScenarioAnalyzer._extract_asset_identifiers:
re.findall(r"\b[A-Z]{2,}-\d{3,}\b", query.upper()). A greedy letter run of
length below 2 cannot match, and positions inside a run carry no boundary,
so the length constraint is at-least-2 on the maximal run. -/
def extractAssetIdentifiers (query : String) : List String :=
  scanAssets (fun L => L ≥ 2) (pyUpper query)

/-- ScenarioAnalyzer._extract_assets:
re.findall(r"\b([A-Z]{1,3}-\d{3,})\b", query). A maximal run longer than 3
fails (backtracking still leaves a letter before the hyphen), so the
constraint is 1 ≤ L ≤ 3 on the maximal run. -/
def extractAssets (query : String) : List String :=
  scanAssets (fun L => 1 ≤ L && L ≤ 3) query

def processKeywordVocab : List String :=
  ["distillation", "tank", "reactor", "pump", "column",
   "pressure", "temperature", "flow", "level", "efficiency",
   "production", "cooling", "heating", "process"]

/-- ScenarioAnalyzer._extract_process_keywords (query already lowered). -/
def extractProcessKeywords (query : String) : List String :=
  processKeywordVocab.filter (fun kw => substrOf kw query)

/-- ScenarioAnalyzer._extract_keywords. -/
def extractKeywords (query : String) : List String :=
  extractProcessKeywords query ++ extractAssetIdentifiers query

def comparisonKeywords : List String := ["compare", "comparison", "across", "between"]

/-- self.domain_keywords, in dict literal order. -/
def domainKeywords : List (String × List String) :=
  [("process_performance", ["performance", "efficiency", "output", "yield"]),
   ("operations", ["operations", "parameters", "critical", "operating"]),
   ("troubleshooting", ["investigate", "root cause", "problem", "issue", "fluctuation"]),
   ("performance_comparison", comparisonKeywords),
   ("maintenance", ["maintenance", "repair", "failure", "breakdown"])]

/-- The fallthrough loop of _identify_domain over the non-comparison
domains, in dict order. -/
def identifyDomainLoop (query : String) : List (String × List String) → Option String
  | [] => none
  | (domain, kws) :: rest =>
    if domain = "performance_comparison" then identifyDomainLoop query rest
    else if kws.any (fun kw => substrOf kw query) then some domain
    else identifyDomainLoop query rest

/-- ScenarioAnalyzer._identify_domain (query already lowered). -/
def identifyDomain (query : String) : String :=
  if comparisonKeywords.any (fun kw => substrOf kw query) then "performance_comparison"
  else
    match identifyDomainLoop query domainKeywords with
    | some d => d
    | none =>
      if substrOf "tank" query then "operations"
      else if substrOf "analyze" query || substrOf "analysis" query then "process_performance"
      else "general"

/-- ScenarioAnalyzer._identify_analysis_type (query already lowered). -/
def identifyAnalysisType (query : String) : String :=
  if substrOf "root cause" query then "root_cause"
  else if substrOf "compare" query || substrOf "comparison" query then "comparison"
  else if substrOf "trend" query then "trend_analysis"
  else if substrOf "optimize" query || substrOf "optimal" query then "optimization"
  else "general_analysis"

/-- self.time_patterns, in dict literal order. -/
def timePatterns : List (String × String) :=
  [("today", "today"), ("yesterday", "yesterday"), ("this_week", "this week"),
   ("last_week", "last week"), ("this_month", "this month"),
   ("last_month", "last month"), ("last_two_weeks", "last two weeks")]

def timePatternLoop (query : String) : List (String × String) → Option String
  | [] => none
  | (period, phrase) :: rest =>
    if hasWordMatch phrase query then some period else timePatternLoop query rest

/-- ScenarioAnalyzer._extract_time_period (query already lowered). -/
def extractTimePeriod (query : String) : String :=
  match timePatternLoop query timePatterns with
  | some p => p
  | none =>
    if substrOf "two weeks" query then "last_two_weeks"
    else if substrOf "month" query then "last_month"
    else if substrOf "week" query then "this_week"
    else "current"

/-- The analysis dict produced by ScenarioAnalyzer.analyze (it always
carries all five keys). -/
structure Analysis where
  keywords : List String
  domain : String
  analysis_type : String
  assets : List String
  time_period : String
deriving Repr, DecidableEq

/-- ScenarioAnalyzer.analyze. -/
def analyze (query : String) : Analysis :=
  let ql := pyLower query
  { keywords := extractKeywords ql
    domain := identifyDomain ql
    analysis_type := identifyAnalysisType ql
    assets := extractAssets query
    time_period := extractTimePeriod ql }

/-! ## RecommendationGenerator (src/app/services/recommendation_generator.py) -/

/-- One domain's template table: agent-type buckets in dict literal order
(sqlagent first in every table in the source). -/
def Buckets : Type := List (String × List String)

def processPerformanceTemplates : Buckets :=
  [("sqlagent",
    ["Get average temperature and pressure values for {asset} over {time_period}",
     "Show min/max temperature readings with timestamps for {asset}",
     "Calculate efficiency metrics and production rates for {time_period}"]),
   ("toolagent",
    ["Analyze temperature and pressure trends to identify anomalies for {asset}",
     "Generate performance report with key metrics visualization"])]

/-- RecommendationGenerator._get_troubleshooting_templates. -/
def troubleshootingTemplates : Buckets :=
  [("sqlagent",
    ["Retrieve historical data for {parameter} when issues occurred",
     "List all alarms and events related to {asset} in {time_period}",
     "Get correlated parameter values during incident times"]),
   ("toolagent",
    ["Analyze {parameter} patterns to identify root cause",
     "Check for correlations between different process variables"])]

/-- RecommendationGenerator._get_comparison_templates. -/
def comparisonTemplates : Buckets :=
  [("sqlagent",
    ["Get {parameter} data for all units to compare performance",
     "Calculate average efficiency metrics per unit for {time_period}",
     "Retrieve benchmark values and actual performance data"]),
   ("toolagent",
    ["Generate comparison charts for unit performance",
     "Identify best and worst performing units with reasons"])]

/-- self.recommendation_templates (RecommendationGenerator._init_templates). -/
def recommendationTemplates : List (String × Buckets) :=
  [("process_performance", processPerformanceTemplates),
   ("troubleshooting", troubleshootingTemplates),
   ("performance_comparison", comparisonTemplates)]

/-- The default table of _get_templates_for_domain. -/
def defaultDomainTemplates : Buckets :=
  [("sqlagent",
    ["Get current values and status for relevant parameters",
     "Retrieve historical data for the specified time period",
     "Show statistical summary of key metrics"]),
   ("toolagent",
    ["Analyze trends and patterns in the data",
     "Generate visualization of key parameters"])]

/-- RecommendationGenerator._get_templates_for_domain. -/
def getTemplatesForDomain (domain : String) : Buckets :=
  match dictFind recommendationTemplates domain with
  | some t => t
  | none => defaultDomainTemplates

def fillParameterVocab : List String := ["temperature", "pressure", "flow", "level"]

/-- RecommendationGenerator._fill_template. -/
def fillTemplate (template : String) (keywords : List String) (time_period : String) : String :=
  let parameter := (keywords.find? (fun k => fillParameterVocab.contains k)).getD "key parameters"
  let assets := keywords.filter (fun k => pyIsUpper k && substrOf "-" k)
  let asset := assets.headD "the specified asset"
  let time_desc := pyReplace time_period "_" " "
  pyReplace (pyReplace (pyReplace template "{parameter}" parameter) "{asset}" asset)
    "{time_period}" time_desc

/-- The enumerate loop of _process_agent_templates: break as soon as
start_count + i reaches 5. -/
def processAgentTemplates (agentType : String) (keywords : List String) (time_period : String)
    (start_count : Nat) : List String → Nat → List AgentQuery
  | [], _ => []
  | t :: ts, i =>
    if start_count + i ≥ 5 then []
    else
      { agent_type := agentType
        query := fillTemplate t keywords time_period
        sub_id := "rec-" ++ toString (start_count + i + 1) } ::
        processAgentTemplates agentType keywords time_period start_count ts (i + 1)

/-- The bucket loop of _create_recommendations_from_templates: extend, bump
rec_count, break once rec_count reaches 5. -/
def bucketLoop (keywords : List String) (time_period : String) :
    List (String × List String) → Nat → List AgentQuery
  | [], _ => []
  | (agentType, ts) :: rest, cnt =>
    let newRecs := processAgentTemplates agentType keywords time_period cnt ts 0
    newRecs ++
      (if cnt + newRecs.length ≥ 5 then [] else bucketLoop keywords time_period rest (cnt + newRecs.length))

/-- RecommendationGenerator._create_default_recommendation. -/
def defaultRecommendation (index : Nat) : AgentQuery :=
  { agent_type := if index ≤ 3 then "sqlagent" else "toolagent"
    query := "Perform additional analysis #" ++ toString index ++ " for comprehensive insights"
    sub_id := "rec-" ++ toString index }

/-- The while-loop of _ensure_five_recommendations (it runs at most five
times, the fuel). -/
def padToFive : Nat → List AgentQuery → List AgentQuery
  | 0, recs => recs
  | fuel + 1, recs =>
    if recs.length < 5 then padToFive fuel (recs ++ [defaultRecommendation (recs.length + 1)])
    else recs

/-- RecommendationGenerator._ensure_five_recommendations. -/
def ensureFiveRecommendations (recs : List AgentQuery) : List AgentQuery :=
  (padToFive 5 recs).take 5

/-- RecommendationGenerator.generate. The analysis dict always carries the
domain/keywords/time_period keys (see `Analysis`), so the .get defaults of
the source collapse to field access. -/
def generate (_query : String) (analysis : Analysis) : List AgentQuery :=
  ensureFiveRecommendations
    (bucketLoop analysis.keywords analysis.time_period (getTemplatesForDomain analysis.domain) 0)

/-! ## Message schemas and formatter
(src/app/core/scenario_schema.py, src/app/services/message_formatter.py)

pydantic v2 validates on construction. ScenarioRecommendation.recommendations
is List[ScenarioCandidate]: a plain str element is rejected. ScenarioResult
.content is str: None is rejected. Both rejection points are reachable from
scenario_service.py and are modelled explicitly. -/

/-- ScenarioCandidate. -/
structure ScenarioCandidate where
  sub_id : String
  question : String
  endpoint : String
deriving Repr, DecidableEq

/-- A Python value appearing in the recommendations list handed to
format_recommendation: scenario_service passes plain strings, the tests
pass ScenarioCandidate instances. -/
inductive PyRecVal where
  | str (s : String)
  | candidate (c : ScenarioCandidate)
deriving Repr, DecidableEq

/-- A validated ScenarioRecommendation message. -/
structure ScenarioRecommendation where
  session_id : String
  message_id : String
  sub_id : Option String
  type : String
  recommendations : List ScenarioCandidate
  query : String
deriving Repr, DecidableEq

/-- A validated ScenarioResult message. -/
structure ScenarioResult where
  session_id : String
  message_id : String
  sub_id : String
  type : String
  agent : String
  content : String
  is_complete : Bool
  error : Option String
deriving Repr, DecidableEq

/-- pydantic item validation for the List[ScenarioCandidate] field: a str
is not a dict or a ScenarioCandidate instance, so it fails. -/
def validateCandidate : PyRecVal → Except String ScenarioCandidate
  | .candidate c => .ok c
  | .str _ => .error "Input should be a valid dictionary or instance of ScenarioCandidate"

def validateCandidateList : List PyRecVal → Except String (List ScenarioCandidate)
  | [] => .ok []
  | v :: vs =>
    match validateCandidate v with
    | .error e => .error e
    | .ok c =>
      match validateCandidateList vs with
      | .error e => .error e
      | .ok cs => .ok (c :: cs)

/-- MessageFormatter.format_recommendation: constructing the pydantic model
validates the recommendations list. -/
def format_recommendation (session_id message_id query : String)
    (recommendations : List PyRecVal) : Except String ScenarioRecommendation :=
  match validateCandidateList recommendations with
  | .error e => .error e
  | .ok cs =>
    .ok { session_id := session_id, message_id := message_id, sub_id := none
          type := "scenario_recommendation", recommendations := cs, query := query }

/-- MessageFormatter.format_result with a content argument that is known to
be a str (the retry path guards with `or ""`; error paths pass ""). -/
def mkScenarioResult (session_id message_id sub_id agent content : String)
    (is_complete : Bool) (error : Option String) : ScenarioResult :=
  { session_id := session_id, message_id := message_id, sub_id := sub_id
    type := "scenario_result", agent := agent, content := content
    is_complete := is_complete, error := error }

/-- MessageFormatter.format_result as called from the process_scenario
streaming loop, where content = result.get("result", "") can be the Python
value None (error results carry result=None): pydantic rejects None for the
str-typed content field. -/
def format_result (session_id message_id sub_id agent : String) (content : Option String)
    (is_complete : Bool) (error : Option String) : Except String ScenarioResult :=
  match content with
  | some c => .ok (mkScenarioResult session_id message_id sub_id agent c is_complete error)
  | none => .error "Input should be a valid string"

/-- A message sent over the WebSocket by the scenario service. -/
inductive WsMessage where
  | recommendation (m : ScenarioRecommendation)
  | result (m : ScenarioResult)
  | connError (session_id message_id error : String)
deriving Repr, DecidableEq

/-! ## ScenarioService (src/app/services/scenario_service.py)

The uuid-generated message_id, the wall-clock and the agent HTTP world are
explicit parameters. WebSocket sends are collected into the returned message
list; the only modelled exception sources are the two pydantic validation
points, which are also the only statically ill-typed expressions in the
orchestrator (websocket/transport failures are out of scope here). -/

abbrev ResultsMap := List (String × AgentResult)

/-- The count of results with status "success". -/
def countSuccess (results : ResultsMap) : Nat :=
  (results.filter (fun p => p.2.status = "success")).length

/-- ScenarioService._should_cache_results. The source compares the float
successful / len(results) against 0.8; for every list length below 2^50 the
double comparison coincides with the exact rational one, written here as
5 * successful ≥ 4 * len. -/
def shouldCacheResults (results : ResultsMap) : Bool :=
  if results.isEmpty then false
  else 5 * countSuccess results ≥ 4 * results.length

/-- ScenarioService._get_agent_type_for_sub_id. -/
def getAgentTypeForSubId (recs : List AgentQuery) (sub_id : String) : String :=
  match recs.find? (fun r => r.sub_id = sub_id) with
  | some r => r.agent_type
  | none => "unknown"

/-- The Step-5 streaming loop of process_scenario: one format_result + send
per results entry, in dict order. Every result dict reaching this loop
carries a "result" key, so content = result.get("result", "") is exactly
the stored value (a str or None). Returns the successfully sent messages
and the pydantic error that aborted the loop, if any. -/
def streamResults (session_id message_id : String) (recs : List AgentQuery) :
    ResultsMap → List ScenarioResult × Option String
  | [] => ([], none)
  | (sub_id, r) :: rest =>
    match format_result session_id message_id sub_id (getAgentTypeForSubId recs sub_id)
        r.result true (if r.status = "error" then r.error else none) with
    | .error e => ([], some e)
    | .ok m =>
      let t := streamResults session_id message_id recs rest
      (m :: t.1, t.2)

/-- The Step-4 dispatch of process_scenario on a cache miss, lines 70-79:
fan out, then write through to the cache exactly when caching is enabled
and _should_cache_results approves. -/
structure DispatchOut where
  results : ResultsMap
  cache : QueryCache ResultsMap
  didWrite : Bool

def dispatchAndCacheStep (use_cache : Bool) (cache : QueryCache ResultsMap)
    (query domain : String) (recommendations : List AgentQuery) (now : Nat)
    (sqlO toolO : Nat → TaskOutcome) : DispatchOut :=
  let out := callAgents sqlO toolO recommendations
  let write := use_cache && shouldCacheResults out.results
  { results := out.results
    cache := if write then qcSet cache query domain out.results now else cache
    didWrite := write }

/-- The mutable state of a ScenarioService instance. -/
structure ScenarioServiceState where
  cache : QueryCache ResultsMap
  use_cache : Bool
  query_store : List (String × List (String × String))

/-- What one process_scenario call leaves behind. -/
structure ProcessOut where
  messages : List WsMessage
  cache : QueryCache ResultsMap
  query_store : List (String × List (String × String))

/-- ScenarioService.process_scenario. -/
def processScenario (svc : ScenarioServiceState) (query session_id message_id : String)
    (now : Nat) (sqlO toolO : Nat → TaskOutcome) : ProcessOut :=
  let analysis := analyze query
  let domain := analysis.domain
  let getRes := if svc.use_cache then qcGet svc.cache query domain now else (none, svc.cache)
  let cachedResults := getRes.1
  let cache1 := getRes.2
  let recommendations := generate query analysis
  let recommendation_texts := recommendations.map (fun r => PyRecVal.str r.query)
  let store1 := dictInsert svc.query_store message_id
      (recommendations.foldl (fun d r => dictInsert d r.sub_id r.query) [])
  match format_recommendation session_id message_id query recommendation_texts with
  | .error e =>
    { messages := [.connError session_id message_id e], cache := cache1, query_store := store1 }
  | .ok recMsg =>
    let step : ResultsMap × QueryCache ResultsMap :=
      match cachedResults with
      | some r => (r, cache1)
      | none =>
        let d := dispatchAndCacheStep svc.use_cache cache1 query domain recommendations now
          sqlO toolO
        (d.results, d.cache)
    let s := streamResults session_id message_id recommendations step.1
    { messages :=
        .recommendation recMsg ::
          (s.1.map WsMessage.result ++
            match s.2 with
            | none => []
            | some e => [.connError session_id message_id e])
      cache := step.2
      query_store := store1 }

/-- What one retry_agent_call call sends, and whether an agent-call
coroutine (_call_sql_agent or _call_tool_agent) was invoked at all. -/
structure RetryCallOut where
  messages : List WsMessage
  dispatched : Bool
deriving Repr, DecidableEq

/-- ScenarioService.retry_agent_call. The two direct agent calls are
oracles; a raised exception lands in the except-branch, which sends a
"Retry failed: ..." result. -/
def retryAgentCall (query_store : List (String × List (String × String)))
    (message_id sub_id agent_type session_id : String) (sqlO toolO : TaskOutcome) :
    RetryCallOut :=
  let found : Option String :=
    match dictFind query_store message_id with
    | none => none
    | some inner => dictFind inner sub_id
  match found with
  | none =>
    { messages := [.result (mkScenarioResult session_id message_id sub_id agent_type "" true
        (some "Original query not found for retry"))]
      dispatched := false }
  | some _original_query =>
    if agent_type = "sqlagent" ∨ agent_type = "toolagent" then
      match (if agent_type = "sqlagent" then sqlO else toolO) with
      | .exn m =>
        { messages := [.result (mkScenarioResult session_id message_id sub_id agent_type "" true
            (some ("Retry failed: " ++ m)))]
          dispatched := true }
      | .ok r =>
        { messages := [.result (mkScenarioResult session_id message_id sub_id agent_type
            (r.result.getD "") true (if r.status = "error" then r.error else none))]
          dispatched := true }
    else
      let r : AgentResult :=
        { status := "error", error := some ("Unknown agent type: " ++ agent_type), result := none }
      { messages := [.result (mkScenarioResult session_id message_id sub_id agent_type
          (r.result.getD "") true (if r.status = "error" then r.error else none))]
        dispatched := false }

/-! ## Helper lemmas -/

/-- Every template table in the source has a 3-template sqlagent bucket
followed by a 2-template toolagent bucket, so the bucket loop emits exactly
five recommendations with sub_ids rec-1 .. rec-5 regardless of the template
texts and fill inputs. -/
theorem ensureFive_bucketLoop_shape (n1 n2 t1 t2 t3 t4 t5 : String) (kw : List String)
    (tp : String) :
    ensureFiveRecommendations (bucketLoop kw tp [(n1, [t1, t2, t3]), (n2, [t4, t5])] 0) =
      [⟨n1, fillTemplate t1 kw tp, "rec-1"⟩, ⟨n1, fillTemplate t2 kw tp, "rec-2"⟩,
       ⟨n1, fillTemplate t3 kw tp, "rec-3"⟩, ⟨n2, fillTemplate t4 kw tp, "rec-4"⟩,
       ⟨n2, fillTemplate t5 kw tp, "rec-5"⟩] := by
  with_unfolding_all rfl

theorem getTemplatesForDomain_default (domain : String)
    (h1 : domain ≠ "process_performance") (h2 : domain ≠ "troubleshooting")
    (h3 : domain ≠ "performance_comparison") :
    getTemplatesForDomain domain = defaultDomainTemplates := by
  simp [getTemplatesForDomain, recommendationTemplates, dictFind_cons, dictFind_nil,
    Ne.symm h1, Ne.symm h2, Ne.symm h3]

theorem generate_sub_ids (q : String) (a : Analysis) :
    (generate q a).map AgentQuery.sub_id = ["rec-1", "rec-2", "rec-3", "rec-4", "rec-5"] := by
  unfold generate
  rcases eq_or_ne a.domain "process_performance" with h | h1
  · rw [h, show getTemplatesForDomain "process_performance" = processPerformanceTemplates from rfl,
      processPerformanceTemplates, ensureFive_bucketLoop_shape]
    rfl
  · rcases eq_or_ne a.domain "troubleshooting" with h | h2
    · rw [h, show getTemplatesForDomain "troubleshooting" = troubleshootingTemplates from rfl,
        troubleshootingTemplates, ensureFive_bucketLoop_shape]
      rfl
    · rcases eq_or_ne a.domain "performance_comparison" with h | h3
      · rw [h, show getTemplatesForDomain "performance_comparison" = comparisonTemplates from rfl,
          comparisonTemplates, ensureFive_bucketLoop_shape]
        rfl
      · rw [getTemplatesForDomain_default a.domain h1 h2 h3, defaultDomainTemplates,
          ensureFive_bucketLoop_shape]
        rfl

theorem generate_length (q : String) (a : Analysis) : (generate q a).length = 5 := by
  have h := congrArg List.length (generate_sub_ids q a)
  simpa using h

/-! ## Claim C4 -/

/-- C4. For every (query, analysis) input pair, RecommendationGenerator
.generate returns a list of exactly 5 AgentQuery values whose sub_id fields
are pairwise distinct and equal, in order, to "rec-1" through "rec-5". -/
theorem C4_generate_five_sub_ids (q : String) (a : Analysis) :
    (generate q a).length = 5 ∧
    (generate q a).map AgentQuery.sub_id = ["rec-1", "rec-2", "rec-3", "rec-4", "rec-5"] ∧
    ((generate q a).map AgentQuery.sub_id).Nodup := by
  refine ⟨generate_length q a, generate_sub_ids q a, ?_⟩
  rw [generate_sub_ids q a]
  decide

/-! ## Claim C9 -/

/-- C9. Every query containing, case-insensitively, one of the
performance_comparison keywords ("compare", "comparison", "across",
"between") is classified into the performance_comparison domain by
ScenarioAnalyzer.analyze, whatever other keywords it contains. -/
theorem C9_comparison_domain_priority (q : String)
    (h : (comparisonKeywords.any fun kw => substrOf kw (pyLower q)) = true) :
    (analyze q).domain = "performance_comparison" := by
  have : (analyze q).domain = identifyDomain (pyLower q) := rfl
  rw [this, identifyDomain, if_pos h]

/-- C9 witness: a concrete query holding a comparison keyword ("between")
together with keywords of the maintenance and process_performance domains. -/
theorem C9_comparison_domain_priority_witness :
    (comparisonKeywords.any fun kw =>
        substrOf kw (pyLower "Compare maintenance efficiency between reactors")) = true ∧
    (analyze "Compare maintenance efficiency between reactors").domain =
      "performance_comparison" :=
  ⟨by decide, C9_comparison_domain_priority _ (by decide)⟩

/-! ## Claim C2 -/

/-- If every attempt comes back as a non-success result whose error text the
code classifies as retryable, the loop runs all the way: maxR invocations,
sleeping d * 2^attempt after each non-final one. -/
theorem retryLoop_all_retryable (maxR d : Nat) (f : Nat → TaskOutcome)
    (hf : ∀ i, i < maxR → ∃ r, f i = TaskOutcome.ok r ∧ r.status ≠ "success" ∧
        isRetryableError (errText r) = true) :
    ∀ remaining attempt le, remaining + attempt = maxR → 0 < remaining →
      (retryLoop maxR d f remaining attempt le).attemptsMade = maxR ∧
      (retryLoop maxR d f remaining attempt le).delays =
        (List.range' attempt (remaining - 1)).map (fun a => d * 2 ^ a) := by
  intro remaining
  induction remaining with
  | zero => intro attempt le heq h0; exact absurd h0 (lt_irrefl 0)
  | succ rem ih =>
    intro attempt le heq _
    obtain ⟨r, hr, hstat, hretry⟩ := hf attempt (by omega)
    simp only [retryLoop, hr]
    rcases Nat.eq_zero_or_pos rem with hrem | hrem
    · subst hrem
      rw [if_pos (Or.inr (by omega))]
      refine ⟨show attempt + 1 = maxR by omega, by simp⟩
    · rw [if_neg (not_or.mpr ⟨hstat, by omega⟩), if_pos hretry]
      obtain ⟨ih1, ih2⟩ := ih (attempt + 1) (some (errText r)) (by omega) hrem
      refine ⟨ih1, ?_⟩
      show d * 2 ^ attempt :: (retryLoop maxR d f rem (attempt + 1) (some (errText r))).delays = _
      rw [ih2, show rem + 1 - 1 = (rem - 1) + 1 by omega, List.range'_succ, List.map_cons]

theorem delays_chain_lt (d : Nat) (hd : 1 ≤ d) (n s : Nat) :
    List.Chain' (· < ·) ((List.range' s n).map (fun a => d * 2 ^ a)) := by
  rw [List.chain'_map]
  have hp : (List.range' s n).Pairwise (· < ·) := by
    have := List.pairwise_lt_range' s n
    exact this
  refine List.Pairwise.chain' (hp.imp ?_)
  intro a b hab
  have hpow : 2 ^ a < 2 ^ b := Nat.pow_lt_pow_right (by omega) hab
  exact mul_lt_mul_of_pos_left hpow (by omega)

/-- C2 (amended). Per sub-query call in _retry_on_failure: a result whose
error text the code classifies as retryable — "timed out" as a
case-SENSITIVE substring or "connect" as a case-insensitive substring — is
re-attempted up to max_retries times with strictly increasing delays
retry_delay * 2^attempt, while a non-success result matching neither test
is returned immediately after exactly one attempt. (The frozen claim's
"case-insensitive" reading of the "timed out" test is refuted by
C2_counterexample.) -/
theorem C2_retry_policy :
    (∀ (maxR d : Nat) (f : Nat → TaskOutcome), 1 ≤ maxR →
      (∀ i, i < maxR → ∃ r, f i = TaskOutcome.ok r ∧ r.status ≠ "success" ∧
          isRetryableError (errText r) = true) →
      (retryOnFailure maxR d f).attemptsMade = maxR ∧
      (retryOnFailure maxR d f).delays = (List.range' 0 (maxR - 1)).map (fun a => d * 2 ^ a) ∧
      (1 ≤ d → List.Chain' (· < ·) (retryOnFailure maxR d f).delays)) ∧
    (∀ (maxR d : Nat) (f : Nat → TaskOutcome) (r : AgentResult), 1 ≤ maxR →
      f 0 = TaskOutcome.ok r → r.status ≠ "success" → isRetryableError (errText r) = false →
      retryOnFailure maxR d f = ⟨r, 1, []⟩) := by
  constructor
  · intro maxR d f hmax hf
    obtain ⟨h1, h2⟩ := retryLoop_all_retryable maxR d f hf maxR 0 none (by omega) (by omega)
    exact ⟨h1, h2, fun hd => h2 ▸ delays_chain_lt d hd (maxR - 1) 0⟩
  · intro maxR d f r hmax hf0 hstat hnoretry
    obtain ⟨m, rfl⟩ : ∃ m, maxR = m + 1 := ⟨maxR - 1, by omega⟩
    show retryLoop (m + 1) d f (m + 1) 0 none = _
    simp only [retryLoop, hf0]
    rcases Nat.eq_zero_or_pos m with hm | hm
    · subst hm
      rw [if_pos (Or.inr rfl)]
    · rw [if_neg (not_or.mpr ⟨hstat, by omega⟩), if_neg (by simp [hnoretry])]

/-- Every attempt fails with the upper-case error text "Request TIMED OUT". -/
def c2UpperOracle : Nat → TaskOutcome :=
  fun _ => TaskOutcome.ok { status := "error", result := none, error := some "Request TIMED OUT" }

/-- Every attempt fails with "Request timed out", the exact text the caller
produces on a timeout. -/
def c2TimedOutOracle : Nat → TaskOutcome :=
  fun _ => TaskOutcome.ok { status := "error", result := none, error := some "Request timed out" }

/-- Every attempt fails with a non-retryable protocol error. -/
def c2Status404Oracle : Nat → TaskOutcome :=
  fun _ => TaskOutcome.ok { status := "error", result := none, error := some "Agent returned status 404" }

/-- C2 counterexample: the error text "Request TIMED OUT" contains
"timed out" case-insensitively, yet _retry_on_failure (with the default
max_retries = 3, retry_delay = 1) returns it after a single attempt with no
backoff sleep, because the source's "timed out" test is case-sensitive. -/
theorem C2_counterexample :
    substrOf "timed out" (pyLower "Request TIMED OUT") = true ∧
    (retryOnFailure 3 1 c2UpperOracle).attemptsMade = 1 ∧
    (retryOnFailure 3 1 c2UpperOracle).delays = [] := by
  decide

/-- C2 witness: with every attempt failing as "Request timed out"
(lowercase, as produced by the caller itself), all 3 attempts run with the
strictly increasing delays [1, 2]; with the non-retryable error
"Agent returned status 404", exactly one attempt runs. -/
theorem C2_retry_policy_witness :
    ((retryOnFailure 3 1 c2TimedOutOracle).attemptsMade = 3 ∧
     (retryOnFailure 3 1 c2TimedOutOracle).delays = (List.range' 0 2).map (fun a => 1 * 2 ^ a)) ∧
    retryOnFailure 3 1 c2Status404Oracle =
      ⟨{ status := "error", result := none, error := some "Agent returned status 404" }, 1, []⟩ := by
  refine ⟨?_, ?_⟩
  · have h := C2_retry_policy.1 3 1 c2TimedOutOracle (by omega)
      (fun i _ => ⟨_, rfl, by decide, by decide⟩)
    exact ⟨h.1, h.2.1⟩
  · exact C2_retry_policy.2 3 1 c2Status404Oracle _ (by omega) rfl (by decide) (by decide)

/-! ## Claim C7 -/

/-- C7 (amended). QueryCache.get immediately after QueryCache.set on the
same (query, domain) returns the value just stored; an entry is visible to
get while now ≤ expires_at (the source's test is `time.time() > expires_at`,
so the entry is still returned at exactly expires_at, against the frozen
claim's strict bound — see C7_counterexample); once now > expires_at, get
returns None and deletes the entry. -/
theorem C7_cache_ttl :
    (∀ (α : Type) (c : QueryCache α) (q d : String) (v : α) (now : Nat),
      (qcGet (qcSet c q d v now) q d now).1 = some v) ∧
    (∀ (α : Type) (c : QueryCache α) (q d : String) (now : Nat) (e : CacheEntry α),
      dictFind c.cache (genKey q d) = some e →
      (now ≤ e.expires_at → (qcGet c q d now).1 = some e.data) ∧
      (now > e.expires_at →
        (qcGet c q d now).1 = none ∧
        (qcGet c q d now).2.cache = dictErase c.cache (genKey q d))) := by
  constructor
  · intro α c q d v now
    have hfind :
        dictFind (qcSet c q d v now).cache (genKey q d) =
          some ⟨v, now + c.ttl, now, 0, q, d⟩ := by
      unfold qcSet
      exact dictFind_dictInsert_self _ _ _
    simp only [qcGet, hfind]
    rw [if_neg (by omega)]
  · intro α c q d now e he
    constructor
    · intro hle
      simp only [qcGet, he]
      rw [if_neg (by omega)]
    · intro hgt
      simp only [qcGet, he]
      rw [if_pos (by omega)]
      exact ⟨rfl, rfl⟩

/-- C7 counterexample: an entry stored at time 0 with the orchestrator's
default ttl of 300 has expires_at = 300, and get at exactly time 300 (the
instant the frozen claim says visibility must have ended) still returns the
stored data. -/
theorem C7_counterexample :
    (dictFind (qcSet (mkQueryCache 300 : QueryCache Nat) "q" "d" 7 0).cache
        (genKey "q" "d")).map (fun e => e.expires_at) = some 300 ∧
    (qcGet (qcSet (mkQueryCache 300 : QueryCache Nat) "q" "d" 7 0) "q" "d" 300).1 = some 7 := by
  decide

/-- C7 witness: set-then-get at the same instant returns the value; one
tick past expires_at the lookup misses. -/
theorem C7_cache_ttl_witness :
    (qcGet (qcSet (mkQueryCache 5 : QueryCache Nat) "q" "d" 9 0) "q" "d" 0).1 = some 9 ∧
    (qcGet (qcSet (mkQueryCache 5 : QueryCache Nat) "q" "d" 9 0) "q" "d" 6).1 = none := by
  refine ⟨C7_cache_ttl.1 Nat (mkQueryCache 5) "q" "d" 9 0, ?_⟩
  exact ((C7_cache_ttl.2 Nat (qcSet (mkQueryCache 5 : QueryCache Nat) "q" "d" 9 0) "q" "d" 6
    ⟨9, 5, 0, 0, "q", "d"⟩ (by decide)).2 (by decide)).1

/-! ## Claim C6 -/

theorem dictErase_length_le {β : Type _} (l : List (String × β)) (key : String) :
    (dictErase l key).length ≤ l.length := by
  induction l with
  | nil => simp [dictErase]
  | cons p rest ih =>
    obtain ⟨k, v⟩ := p
    by_cases hk : k = key
    · simp [dictErase, hk]
    · simp only [dictErase, if_neg hk, List.length_cons]
      omega

theorem dictFind_isSome_of_mem_keys {β : Type _} (l : List (String × β)) (k : String)
    (h : k ∈ l.map Prod.fst) : (dictFind l k).isSome := by
  induction l with
  | nil => simp at h
  | cons p rest ih =>
    obtain ⟨k', v⟩ := p
    by_cases hk : k' = k
    · simp [hk]
    · simp only [List.map_cons, List.mem_cons] at h
      rcases h with h | h

      · exact absurd h.symm hk
      · simp only [dictFind_cons, if_neg hk]
        exact ih h

theorem dictFind_eq_of_mem {β : Type _} (l : List (String × β)) (p : String × β)
    (hnd : (l.map Prod.fst).Nodup) (hp : p ∈ l) : dictFind l p.1 = some p.2 := by
  induction l with
  | nil => simp at hp
  | cons hd rest ih =>
    obtain ⟨k, v⟩ := hd
    simp only [List.map_cons, List.nodup_cons] at hnd
    rcases List.mem_cons.mp hp with rfl | hmem
    · simp
    · have hk : k ≠ p.1 := by
        intro hkk
        exact hnd.1 (hkk ▸ (List.mem_map.mpr ⟨p, hmem, rfl⟩))
      simp only [dictFind_cons, if_neg hk]
      exact ih hnd.2 hmem

/-- Python min over the remaining keys (with the running best) lands on a
key that is the running best or one of the remaining keys, carrying a
created_at that bounds the running best and every remaining entry from
below. -/
theorem oldestAux_spec {α : Type _} :
    ∀ (rest : List (String × CacheEntry α)) (bk : String) (bc : Nat),
      ∃ rc, ((oldestAux (bk, bc) rest = bk ∧ rc = bc) ∨
             (∃ p ∈ rest, oldestAux (bk, bc) rest = p.1 ∧ rc = p.2.created_at)) ∧
        rc ≤ bc ∧ ∀ p ∈ rest, rc ≤ p.2.created_at := by
  intro rest
  induction rest with
  | nil =>
    intro bk bc
    exact ⟨bc, Or.inl ⟨rfl, rfl⟩, le_refl bc, by simp⟩
  | cons hd tl ih =>
    intro bk bc
    obtain ⟨k', e'⟩ := hd
    by_cases hlt : e'.created_at < bc
    · have hstep : oldestAux (bk, bc) ((k', e') :: tl) = oldestAux (k', e'.created_at) tl := by
        simp [oldestAux, hlt]
      obtain ⟨rc, hdisj, hle, hall⟩ := ih k' e'.created_at
      refine ⟨rc, ?_, by omega, ?_⟩
      · rcases hdisj with ⟨heq, hrc⟩ | ⟨p, hp, heq, hrc⟩
        · exact Or.inr ⟨(k', e'), List.mem_cons_self _ _, by rw [hstep, heq], hrc⟩
        · exact Or.inr ⟨p, List.mem_cons_of_mem _ hp, by rw [hstep, heq], hrc⟩
      · intro p hp
        rcases List.mem_cons.mp hp with rfl | hmem
        · exact hle
        · exact hall p hmem
    · have hstep : oldestAux (bk, bc) ((k', e') :: tl) = oldestAux (bk, bc) tl := by
        simp [oldestAux, hlt]
      obtain ⟨rc, hdisj, hle, hall⟩ := ih bk bc
      refine ⟨rc, ?_, hle, ?_⟩
      · rcases hdisj with ⟨heq, hrc⟩ | ⟨p, hp, heq, hrc⟩
        · exact Or.inl ⟨by rw [hstep, heq], hrc⟩
        · exact Or.inr ⟨p, List.mem_cons_of_mem _ hp, by rw [hstep, heq], hrc⟩
      · intro p hp
        rcases List.mem_cons.mp hp with rfl | hmem
        · show rc ≤ e'.created_at
          omega
        · exact hall p hmem

/-- The key selected by _evict_oldest belongs to the dict and carries a
minimal created_at; eviction is erasure of that key. -/
theorem evictOldest_spec {α : Type _} (k : String) (e : CacheEntry α)
    (rest : List (String × CacheEntry α))
    (hnd : ((((k, e) :: rest)).map Prod.fst).Nodup) :
    ∃ k0 e0, dictFind ((k, e) :: rest) k0 = some e0 ∧
      (∀ p ∈ (k, e) :: rest, e0.created_at ≤ p.2.created_at) ∧
      evictOldest ((k, e) :: rest) = dictErase ((k, e) :: rest) k0 := by
  obtain ⟨rc, hdisj, hle, hall⟩ := oldestAux_spec rest k e.created_at
  rcases hdisj with ⟨heq, hrc⟩ | ⟨p, hp, heq, hrc⟩
  · refine ⟨k, e, by simp, ?_, ?_⟩
    · intro p hp
      rcases List.mem_cons.mp hp with rfl | hmem
      · exact le_refl _
      · have := hall p hmem
        show e.created_at ≤ p.2.created_at
        omega
    · show dictErase ((k, e) :: rest) (oldestAux (k, e.created_at) rest) = _
      rw [heq]
  · refine ⟨p.1, p.2, dictFind_eq_of_mem _ p hnd (List.mem_cons_of_mem _ hp), ?_, ?_⟩
    · intro q hq
      rcases List.mem_cons.mp hq with rfl | hmem
      · show p.2.created_at ≤ e.created_at
        omega
      · have := hall q hmem
        omega
    · show dictErase ((k, e) :: rest) (oldestAux (k, e.created_at) rest) = _
      rw [heq]

/-- The evicted key is present, so eviction of a nonempty dict removes
exactly one entry. -/
theorem evictOldest_length {α : Type _} (k : String) (e : CacheEntry α)
    (rest : List (String × CacheEntry α)) :
    (evictOldest ((k, e) :: rest)).length + 1 = ((k, e) :: rest).length := by
  obtain ⟨rc, hdisj, _, _⟩ := oldestAux_spec rest k e.created_at
  have hmem : oldestAux (k, e.created_at) rest ∈ ((k, e) :: rest).map Prod.fst := by
    rcases hdisj with ⟨heq, _⟩ | ⟨p, hp, heq, _⟩
    · rw [heq]; exact List.mem_cons_self _ _
    · rw [heq]
      exact List.mem_cons_of_mem _ (List.mem_map.mpr ⟨p, hp, rfl⟩)
  show (dictErase ((k, e) :: rest) (oldestAux (k, e.created_at) rest)).length + 1 = _
  exact dictErase_length_of_present _ _ (dictFind_isSome_of_mem_keys _ _ hmem)

theorem applyOp_length_le {α : Type _} (c : QueryCache α) (op : CacheOp α)
    (hmax : 1 ≤ c.max_size) (hlen : c.cache.length ≤ c.max_size) :
    (applyOp c op).cache.length ≤ c.max_size ∧ (applyOp c op).max_size = c.max_size ∧
    (applyOp c op).ttl = c.ttl := by
  cases op with
  | get q d now =>
    simp only [applyOp]
    rcases hfind : dictFind c.cache (genKey q d) with _ | item
    · simp only [qcGet, hfind]
      refine ⟨hlen, ?_, ?_⟩ <;> trivial
    · simp only [qcGet, hfind]
      by_cases hexp : now > item.expires_at
      · rw [if_pos hexp]
        refine ⟨le_trans (dictErase_length_le _ _) hlen, ?_, ?_⟩ <;> trivial
      · rw [if_neg hexp]
        refine ⟨?_, ?_, ?_⟩ <;> try trivial
        rw [dictInsert_length, if_pos (by simp [hfind])]
        exact hlen
  | set q d v now =>
    simp only [applyOp]
    unfold qcSet
    by_cases hcap : c.cache.length ≥ c.max_size
    · rw [if_pos hcap]
      have hne : c.cache ≠ [] := by
        intro hnil
        rw [hnil] at hcap
        simp only [List.length_nil] at hcap
        omega
      obtain ⟨⟨k, e⟩, rest, hc⟩ : ∃ p rest, c.cache = p :: rest := by
        cases hcc : c.cache with
        | nil => exact absurd hcc hne
        | cons p rest => exact ⟨p, rest, rfl⟩
      rw [hc]
      have hev := evictOldest_length k e rest
      refine ⟨?_, ?_, ?_⟩ <;> try trivial
      rw [dictInsert_length]
      rw [hc] at hlen hcap
      split_ifs <;> omega
    · rw [if_neg hcap]
      refine ⟨?_, ?_, ?_⟩ <;> try trivial
      rw [dictInsert_length]
      split_ifs <;> omega

theorem applyOps_length_le {α : Type _} (ops : List (CacheOp α)) :
    ∀ (c : QueryCache α), 1 ≤ c.max_size → c.cache.length ≤ c.max_size →
      (applyOps c ops).cache.length ≤ c.max_size := by
  induction ops with
  | nil => intro c _ hlen; exact hlen
  | cons op rest ih =>
    intro c hmax hlen
    obtain ⟨h1, h2, _⟩ := applyOp_length_le c op hmax hlen
    have := ih (applyOp c op) (h2 ▸ hmax) (h2 ▸ h1)
    rw [h2] at this
    exact this

/-- C6 (amended). QueryCache.set evicts exactly when the dict already holds
at least max_size entries — the capacity test precedes the key computation,
so an overwrite of an existing key at capacity also evicts (the frozen
claim's "only when the insert would exceed max_size" is refuted by
C6_counterexample) — and what it evicts is a single entry with the smallest
created_at; the entry count never exceeds max_size (100 as constructed)
over any get/set sequence. -/
theorem C6_eviction :
    (∀ (α : Type) (c : QueryCache α) (q d : String) (v : α) (now : Nat),
      c.cache.length < c.max_size →
      (qcSet c q d v now).cache =
        dictInsert c.cache (genKey q d) ⟨v, now + c.ttl, now, 0, q, d⟩) ∧
    (∀ (α : Type) (c : QueryCache α) (q d : String) (v : α) (now : Nat),
      (c.cache.map Prod.fst).Nodup →
      c.cache.length ≥ c.max_size → c.cache ≠ [] →
      ∃ k0 e0, dictFind c.cache k0 = some e0 ∧
        (∀ p ∈ c.cache, e0.created_at ≤ p.2.created_at) ∧
        (qcSet c q d v now).cache =
          dictInsert (dictErase c.cache k0) (genKey q d) ⟨v, now + c.ttl, now, 0, q, d⟩) ∧
    (∀ (α : Type) (ttl : Nat) (ops : List (CacheOp α)),
      (applyOps (mkQueryCache ttl) ops).cache.length ≤ 100) := by
  refine ⟨?_, ?_, ?_⟩
  · intro α c q d v now hlt
    unfold qcSet
    rw [if_neg (by omega)]
  · intro α c q d v now hnd hcap hne
    obtain ⟨⟨k, e⟩, rest, hc⟩ : ∃ p rest, c.cache = p :: rest := by
      cases hcc : c.cache with
      | nil => exact absurd hcc hne
      | cons p rest => exact ⟨p, rest, rfl⟩
    obtain ⟨k0, e0, hfind, hmin, hev⟩ := evictOldest_spec k e rest (hc ▸ hnd)
    refine ⟨k0, e0, hc ▸ hfind, hc ▸ hmin, ?_⟩
    unfold qcSet
    rw [if_pos hcap, hc, hev]
  · intro α ttl ops
    have h := applyOps_length_le ops (mkQueryCache ttl : QueryCache α)
      (by simp [mkQueryCache]) (by simp [mkQueryCache])
    simpa [mkQueryCache] using h

/-- One hundred distinct inserts through the public set API, filling the
cache to exactly max_size = 100. -/
def c6SetOps : List (CacheOp Nat) :=
  (List.range 100).map (fun i => CacheOp.set (toString i) "d" 0 i)

def c6State : QueryCache Nat := applyOps (mkQueryCache 300) c6SetOps

set_option maxRecDepth 400000

/-- C6 counterexample: with the cache full at exactly max_size = 100 and the
key of query "50" already present, set("50", "d", ...) — an in-place
overwrite whose insert could not exceed max_size — still evicts the oldest
entry (query "0"), leaving only 99 entries. This refutes "set only ever
evicts when the insert would exceed max_size". -/
theorem C6_counterexample :
    c6State.cache.length = 100 ∧ c6State.max_size = 100 ∧
    (dictFind c6State.cache (genKey "50" "d")).isSome = true ∧
    (dictFind c6State.cache (genKey "0" "d")).isSome = true ∧
    (dictFind (qcSet c6State "50" "d" 1 200).cache (genKey "0" "d")).isSome = false ∧
    (qcSet c6State "50" "d" 1 200).cache.length = 99 := by
  decide

/-- C6 witness: a below-capacity set is a plain insert; a set on the full
hundred-entry state evicts a minimal-created_at entry; the size bound holds
on the hundred-insert sequence. -/
theorem C6_eviction_witness :
    (qcSet (mkQueryCache 300 : QueryCache Nat) "q" "d" 7 5).cache =
      dictInsert (mkQueryCache 300 : QueryCache Nat).cache (genKey "q" "d")
        ⟨7, 5 + (mkQueryCache 300 : QueryCache Nat).ttl, 5, 0, "q", "d"⟩ ∧
    (∃ k0 e0, dictFind c6State.cache k0 = some e0 ∧
        (∀ p ∈ c6State.cache, e0.created_at ≤ p.2.created_at) ∧
        (qcSet c6State "50" "d" 1 200).cache =
          dictInsert (dictErase c6State.cache k0) (genKey "50" "d")
            ⟨1, 200 + c6State.ttl, 200, 0, "50", "d"⟩) ∧
    (applyOps (mkQueryCache 300 : QueryCache Nat) c6SetOps).cache.length ≤ 100 := by
  refine ⟨C6_eviction.1 Nat (mkQueryCache 300) "q" "d" 7 5 (by decide),
          C6_eviction.2.1 Nat c6State "50" "d" 1 200 (by decide) (by decide) (by decide),
          C6_eviction.2.2 Nat 300 c6SetOps⟩

/-! ## Claims C3 and C10 -/

theorem dictFind_append {β : Type _} (l1 l2 : List (String × β)) (k : String) :
    dictFind (l1 ++ l2) k =
      match dictFind l1 k with
      | some v => some v
      | none => dictFind l2 k := by
  induction l1 with
  | nil => simp
  | cons p rest ih =>
    obtain ⟨k', v⟩ := p
    by_cases hk : k' = k
    · simp [hk]
    · simp only [List.cons_append, dictFind_cons, if_neg hk, ih]

/-- Building a dict by inserting pairs with fresh, pairwise-distinct keys
appends them in order. -/
theorem foldl_dictInsert_eq_append {β : Type _} :
    ∀ (pairs acc : List (String × β)),
      (∀ k ∈ pairs.map Prod.fst, dictFind acc k = none) →
      (pairs.map Prod.fst).Nodup →
      pairs.foldl (fun d p => dictInsert d p.1 p.2) acc = acc ++ pairs := by
  intro pairs
  induction pairs with
  | nil => intro acc _ _; simp
  | cons p rest ih =>
    intro acc hdisj hnd
    obtain ⟨pk, pv⟩ := p
    simp only [List.foldl_cons]
    have habs : dictFind acc pk = none := hdisj pk (by simp)
    rw [dictInsert_keys_of_absent _ _ _ habs]
    simp only [List.map_cons, List.nodup_cons] at hnd
    have hdisj2 : ∀ k ∈ rest.map Prod.fst, dictFind (acc ++ [(pk, pv)]) k = none := by
      intro k hk
      rw [dictFind_append, hdisj k (by simp [hk])]
      have h2 : pk ≠ k := fun he => hnd.1 (he ▸ hk)
      simp [h2]
    rw [ih (acc ++ [(pk, pv)]) hdisj2 hnd.2]
    simp

/-- The results dict of call_agents, laid out as the (sub_id, result) pairs
in input order. -/
def agentPairs (sqlO toolO : Nat → TaskOutcome) (queries : List AgentQuery) :
    List (String × AgentResult) :=
  queries.enum.map (fun p => (p.2.sub_id, taskResult sqlO toolO p.1 p.2))

theorem agentPairs_keys (sqlO toolO : Nat → TaskOutcome) (queries : List AgentQuery) :
    (agentPairs sqlO toolO queries).map Prod.fst = queries.map AgentQuery.sub_id := by
  rw [agentPairs, List.map_map]
  have h : (Prod.fst ∘ fun p : Nat × AgentQuery =>
      (p.2.sub_id, taskResult sqlO toolO p.1 p.2)) = (AgentQuery.sub_id ∘ Prod.snd) := rfl
  rw [h, ← List.map_map, List.enum_map_snd]

theorem callAgents_results (sqlO toolO : Nat → TaskOutcome) (queries : List AgentQuery)
    (hnd : (queries.map AgentQuery.sub_id).Nodup) :
    (callAgents sqlO toolO queries).results = agentPairs sqlO toolO queries := by
  unfold callAgents
  by_cases hq : queries.isEmpty
  · rw [if_pos hq]
    obtain rfl : queries = [] := List.isEmpty_iff.mp hq
    simp [agentPairs]
  · rw [if_neg hq]
    show (queries.enum).foldl
        (fun d p => dictInsert d p.2.sub_id (taskResult sqlO toolO p.1 p.2)) [] = _
    have hfold : (queries.enum).foldl
        (fun d p => dictInsert d p.2.sub_id (taskResult sqlO toolO p.1 p.2)) [] =
        (agentPairs sqlO toolO queries).foldl (fun d p => dictInsert d p.1 p.2) [] := by
      rw [agentPairs, List.foldl_map]
    rw [hfold, foldl_dictInsert_eq_append _ [] (by simp) (by rw [agentPairs_keys]; exact hnd)]
    simp

/-- C3. ParallelAgentCaller.call_agents is total (every exception is caught
by the gather and converted to an error dict): for pairwise-distinct
sub_ids it returns one result per input sub-query — N keys for N inputs —
each with status success or error, whatever the oracles do (including
raising on every call); a sub-query whose agent_type is neither "sqlagent"
nor "toolagent" maps to the unknown-agent error result and its index is
never dispatched to an agent-call coroutine. -/
theorem C3_call_agents_total (sqlO toolO : Nat → TaskOutcome) (queries : List AgentQuery)
    (hnd : (queries.map AgentQuery.sub_id).Nodup)
    (hsql : ∀ i r, sqlO i = TaskOutcome.ok r → r.status = "success" ∨ r.status = "error")
    (htool : ∀ i r, toolO i = TaskOutcome.ok r → r.status = "success" ∨ r.status = "error") :
    (callAgents sqlO toolO queries).results.length = queries.length ∧
    (∀ q ∈ queries, (dictFind (callAgents sqlO toolO queries).results q.sub_id).isSome = true) ∧
    (∀ p ∈ (callAgents sqlO toolO queries).results,
      p.2.status = "success" ∨ p.2.status = "error") ∧
    (∀ i, ∀ h : i < queries.length,
      (queries.get ⟨i, h⟩).agent_type ≠ "sqlagent" →
      (queries.get ⟨i, h⟩).agent_type ≠ "toolagent" →
      dictFind (callAgents sqlO toolO queries).results (queries.get ⟨i, h⟩).sub_id =
        some (create_error_response
          ("Unknown agent type: " ++ (queries.get ⟨i, h⟩).agent_type)) ∧
      i ∉ (callAgents sqlO toolO queries).dispatched) := by
  have hres := callAgents_results sqlO toolO queries hnd
  have hkeys := agentPairs_keys sqlO toolO queries
  refine ⟨?_, ?_, ?_, ?_⟩
  · rw [hres]
    simp [agentPairs]
  · intro q hq
    rw [hres]
    have : q.sub_id ∈ (agentPairs sqlO toolO queries).map Prod.fst := by
      rw [hkeys]
      exact List.mem_map.mpr ⟨q, hq, rfl⟩
    exact dictFind_isSome_of_mem_keys _ _ this
  · intro p hp
    rw [hres] at hp
    obtain ⟨ip, _, hpe⟩ := List.mem_map.mp hp
    rw [← hpe]
    show (taskResult sqlO toolO ip.1 ip.2).status = _ ∨ _
    unfold taskResult
    by_cases h1 : ip.2.agent_type = "sqlagent"
    · rw [if_pos h1]
      rcases ho : sqlO ip.1 with r | m
      · exact hsql ip.1 r ho
      · exact Or.inr rfl
    · rw [if_neg h1]
      by_cases h2 : ip.2.agent_type = "toolagent"
      · rw [if_pos h2]
        rcases ho : toolO ip.1 with r | m
        · exact htool ip.1 r ho
        · exact Or.inr rfl
      · rw [if_neg h2]
        exact Or.inr rfl
  · intro i h hne1 hne2
    constructor
    · have hmem : ((queries.get ⟨i, h⟩).sub_id, taskResult sqlO toolO i (queries.get ⟨i, h⟩)) ∈
          agentPairs sqlO toolO queries := by
        refine List.mem_map.mpr ⟨(i, queries.get ⟨i, h⟩), ?_, rfl⟩
        refine List.mk_mem_enum_iff_getElem?.mpr ?_
        simp [List.getElem?_eq_getElem h, List.get_eq_getElem]
      have hfind2 := dictFind_eq_of_mem _ _ (hkeys ▸ hnd) hmem
      have htask : taskResult sqlO toolO i (queries.get ⟨i, h⟩) =
          create_error_response ("Unknown agent type: " ++ (queries.get ⟨i, h⟩).agent_type) := by
        unfold taskResult
        rw [if_neg hne1, if_neg hne2]
      rw [htask] at hfind2
      rw [hres]
      exact hfind2
    · intro hmem
      unfold callAgents at hmem
      rw [if_neg (by simp [List.isEmpty_iff]; intro hq; rw [hq] at h; simp at h)] at hmem
      obtain ⟨a, ha, hfa⟩ := List.mem_filterMap.mp hmem
      by_cases hcond : a.2.agent_type = "sqlagent" ∨ a.2.agent_type = "toolagent"
      · rw [if_pos hcond] at hfa
        obtain rfl : a.1 = i := by simpa using hfa
        have : queries[a.1]? = some a.2 := List.mem_enum_iff_getElem?.mp ha
        have ha2 : a.2 = queries.get ⟨a.1, h⟩ := by
          have hg : queries[a.1]? = some (queries.get ⟨a.1, h⟩) := by
            simp [List.getElem?_eq_getElem h, List.get_eq_getElem]
          rw [hg] at this
          exact (Option.some_injective _ this).symm
        rw [ha2] at hcond
        rcases hcond with hc | hc
        · exact hne1 hc
        · exact hne2 hc
      · rw [if_neg hcond] at hfa
        exact Option.noConfusion hfa

/-- Streaming a results dict in which every entry carries a str "result"
value sends one ScenarioResult per entry, in dict order, with no pydantic
failure. -/
theorem streamResults_all_some (session_id message_id : String) (recs : List AgentQuery) :
    ∀ rm : ResultsMap, (∀ p ∈ rm, p.2.result.isSome = true) →
      (streamResults session_id message_id recs rm).2 = none ∧
      (streamResults session_id message_id recs rm).1.map ScenarioResult.sub_id =
        rm.map Prod.fst := by
  intro rm
  induction rm with
  | nil => intro _; exact ⟨rfl, rfl⟩
  | cons p rest ih =>
    intro hall
    obtain ⟨k, r⟩ := p
    have hr : r.result.isSome = true := hall (k, r) (List.mem_cons_self _ _)
    obtain ⟨c, hc⟩ := Option.isSome_iff_exists.mp hr
    obtain ⟨ih1, ih2⟩ := ih (fun p hp => hall p (List.mem_cons_of_mem _ hp))
    simp only [streamResults, hc, format_result]
    exact ⟨ih1, by simp [mkScenarioResult, ih2]⟩

/-- C10. The results dict of call_agents enumerates its keys exactly in the
order of the input sub-query list, and (with every entry carrying a str
result, i.e. all successes) the Step-5 streaming loop therefore sends the
ScenarioResult messages in the original generation order. (With an error
entry present the loop as written aborts at it — see C1 — so the frozen
claim's end-to-end reading holds only for the all-success dispatch modelled
here; C10_counterexample shows the loop is not even reached on the error
path that C1 establishes for every processed query.) -/
theorem C10_results_order (sqlO toolO : Nat → TaskOutcome) (queries : List AgentQuery)
    (hnd : (queries.map AgentQuery.sub_id).Nodup) :
    (callAgents sqlO toolO queries).results.map Prod.fst = queries.map AgentQuery.sub_id ∧
    (∀ (session_id message_id : String) (recs : List AgentQuery),
      (∀ p ∈ (callAgents sqlO toolO queries).results, p.2.result.isSome = true) →
      (streamResults session_id message_id recs
          (callAgents sqlO toolO queries).results).2 = none ∧
      (streamResults session_id message_id recs
          (callAgents sqlO toolO queries).results).1.map ScenarioResult.sub_id =
        queries.map AgentQuery.sub_id) := by
  have hres := callAgents_results sqlO toolO queries hnd
  have hkeys := agentPairs_keys sqlO toolO queries
  refine ⟨by rw [hres, hkeys], ?_⟩
  intro session_id message_id recs hall
  obtain ⟨h1, h2⟩ := streamResults_all_some session_id message_id recs
    (callAgents sqlO toolO queries).results hall
  exact ⟨h1, by rw [h2, hres, hkeys]⟩

/-- Two sub-queries, one for the SQL agent and one with an unknown agent
type. -/
def c3Queries : List AgentQuery :=
  [⟨"sqlagent", "q1", "rec-1"⟩, ⟨"wizagent", "q2", "rec-2"⟩]

/-- Every agent call raises. -/
def raisingOracle : Nat → TaskOutcome := fun _ => TaskOutcome.exn "boom"

/-- C3 witness: with every underlying call raising, both sub-queries still
resolve — two keys, both error-status — and the unknown-type entry is the
no-dispatch error result. -/
theorem C3_call_agents_total_witness :
    (callAgents raisingOracle raisingOracle c3Queries).results.length = c3Queries.length ∧
    (∀ q ∈ c3Queries,
      (dictFind (callAgents raisingOracle raisingOracle c3Queries).results q.sub_id).isSome =
        true) ∧
    (∀ p ∈ (callAgents raisingOracle raisingOracle c3Queries).results,
      p.2.status = "success" ∨ p.2.status = "error") ∧
    (∀ i, ∀ h : i < c3Queries.length,
      (c3Queries.get ⟨i, h⟩).agent_type ≠ "sqlagent" →
      (c3Queries.get ⟨i, h⟩).agent_type ≠ "toolagent" →
      dictFind (callAgents raisingOracle raisingOracle c3Queries).results
          (c3Queries.get ⟨i, h⟩).sub_id =
        some (create_error_response
          ("Unknown agent type: " ++ (c3Queries.get ⟨i, h⟩).agent_type)) ∧
      i ∉ (callAgents raisingOracle raisingOracle c3Queries).dispatched) :=
  C3_call_agents_total raisingOracle raisingOracle c3Queries (by decide)
    (fun _ r h => nomatch h) (fun _ r h => nomatch h)

/-- Two sub-queries that both succeed. -/
def c10Queries : List AgentQuery :=
  [⟨"sqlagent", "a", "rec-1"⟩, ⟨"toolagent", "b", "rec-2"⟩]

def successOracle : Nat → TaskOutcome :=
  fun _ => TaskOutcome.ok { status := "success", result := some "res", error := none }

/-- C10 witness: an all-success fan-out streams its two results in the
input order rec-1, rec-2 with no aborting validation error. -/
theorem C10_results_order_witness :
    (callAgents successOracle successOracle c10Queries).results.map Prod.fst =
      c10Queries.map AgentQuery.sub_id ∧
    (streamResults "s" "m" c10Queries
        (callAgents successOracle successOracle c10Queries).results).2 = none ∧
    (streamResults "s" "m" c10Queries
        (callAgents successOracle successOracle c10Queries).results).1.map
        ScenarioResult.sub_id = c10Queries.map AgentQuery.sub_id := by
  have h := C10_results_order successOracle successOracle c10Queries (by decide)
  exact ⟨h.1, (h.2 "s" "m" c10Queries (by decide)).1, (h.2 "s" "m" c10Queries (by decide)).2⟩

/-! ## Claim C5 -/

/-- C5. With caching enabled (the default SCENARIO_USE_CACHE=true), the
post-fan-out step of process_scenario writes the results map to the cache
if and only if the map is non-empty and its success fraction is at least
0.8 (stated exactly as 5 * successes ≥ 4 * size); in particular a 5-entry
map with 3 successes (2 errors) is never written and one with 4 successes
(1 error) always is; the write is exactly QueryCache.set of the results
map, and on no-write the cache is untouched. -/
theorem C5_cache_write_policy (cache : QueryCache ResultsMap) (query domain : String)
    (recs : List AgentQuery) (now : Nat) (sqlO toolO : Nat → TaskOutcome) (use_cache : Bool)
    (huse : use_cache = true) :
    let d := dispatchAndCacheStep use_cache cache query domain recs now sqlO toolO
    (d.didWrite = true ↔
      d.results ≠ [] ∧ 5 * countSuccess d.results ≥ 4 * d.results.length) ∧
    (d.results.length = 5 → countSuccess d.results = 3 → d.didWrite = false) ∧
    (d.results.length = 5 → countSuccess d.results = 4 → d.didWrite = true) ∧
    (d.didWrite = true → d.cache = qcSet cache query domain d.results now) ∧
    (d.didWrite = false → d.cache = cache) := by
  subst huse
  intro d
  have hwrite : d.didWrite = shouldCacheResults d.results := rfl
  have hiff : shouldCacheResults d.results = true ↔
      d.results ≠ [] ∧ 5 * countSuccess d.results ≥ 4 * d.results.length := by
    unfold shouldCacheResults
    by_cases he : d.results.isEmpty
    · simp [he, List.isEmpty_iff.mp he]
    · rw [if_neg he]
      simp only [decide_eq_true_eq]
      constructor
      · intro hge
        exact ⟨fun hnil => he (by simp [hnil]), hge⟩
      · intro hh
        exact hh.2
  refine ⟨hwrite ▸ hiff, ?_, ?_, ?_, ?_⟩
  · intro h5 h3
    rw [hwrite]
    unfold shouldCacheResults
    rw [if_neg (by intro he; rw [List.isEmpty_iff.mp he] at h5; simp at h5)]
    rw [h3, h5]
    decide
  · intro h5 h4
    rw [hwrite]
    unfold shouldCacheResults
    rw [if_neg (by intro he; rw [List.isEmpty_iff.mp he] at h5; simp at h5)]
    rw [h4, h5]
    decide
  · intro hw
    rw [hwrite] at hw
    have hw' : shouldCacheResults (callAgents sqlO toolO recs).results = true := hw
    have hc : d.cache =
        if shouldCacheResults (callAgents sqlO toolO recs).results then
          qcSet cache query domain (callAgents sqlO toolO recs).results now
        else cache := rfl
    rw [hc, if_pos hw']
    rfl
  · intro hw
    rw [hwrite] at hw
    have hw' : shouldCacheResults (callAgents sqlO toolO recs).results = false := hw
    have hc : d.cache =
        if shouldCacheResults (callAgents sqlO toolO recs).results then
          qcSet cache query domain (callAgents sqlO toolO recs).results now
        else cache := rfl
    rw [hc, if_neg (by simp [hw'])]

/-- Five SQL-agent sub-queries rec-1 .. rec-5. -/
def c5Queries : List AgentQuery :=
  [⟨"sqlagent", "a", "rec-1"⟩, ⟨"sqlagent", "b", "rec-2"⟩, ⟨"sqlagent", "c", "rec-3"⟩,
   ⟨"sqlagent", "d", "rec-4"⟩, ⟨"sqlagent", "e", "rec-5"⟩]

/-- Exactly the last call fails: 4 of 5 succeed (ratio 0.8). -/
def c5OneErrorOracle : Nat → TaskOutcome := fun i =>
  if i < 4 then TaskOutcome.ok { status := "success", result := some "ok", error := none }
  else TaskOutcome.ok { status := "error", result := none, error := some "boom" }

/-- The last two calls fail: 3 of 5 succeed (ratio 0.6). -/
def c5TwoErrorOracle : Nat → TaskOutcome := fun i =>
  if i < 3 then TaskOutcome.ok { status := "success", result := some "ok", error := none }
  else TaskOutcome.ok { status := "error", result := none, error := some "boom" }

/-- C5 witness: the 1-error fan-out is written to the cache, the 2-error
fan-out is not. -/
theorem C5_cache_write_policy_witness :
    (dispatchAndCacheStep true (mkQueryCache 300) "q" "general" c5Queries 0
        c5OneErrorOracle c5OneErrorOracle).didWrite = true ∧
    (dispatchAndCacheStep true (mkQueryCache 300) "q" "general" c5Queries 0
        c5TwoErrorOracle c5TwoErrorOracle).didWrite = false :=
  ⟨(C5_cache_write_policy (mkQueryCache 300) "q" "general" c5Queries 0
      c5OneErrorOracle c5OneErrorOracle true rfl).2.2.1 (by decide) (by decide),
   (C5_cache_write_policy (mkQueryCache 300) "q" "general" c5Queries 0
      c5TwoErrorOracle c5TwoErrorOracle true rfl).2.1 (by decide) (by decide)⟩

/-! ## Claim C8 -/

/-- C8. A retry whose (message_id, sub_id) pair is absent from the query
store sends exactly one message: a ScenarioResult with error "Original
query not found for retry", is_complete true and empty content — not a
connection-level error — and dispatches no agent call. -/
theorem C8_retry_not_found (store : List (String × List (String × String)))
    (message_id sub_id agent_type session_id : String) (sqlO toolO : TaskOutcome)
    (h : (match dictFind store message_id with
          | none => (none : Option String)
          | some inner => dictFind inner sub_id) = none) :
    retryAgentCall store message_id sub_id agent_type session_id sqlO toolO =
      { messages := [WsMessage.result (mkScenarioResult session_id message_id sub_id agent_type
          "" true (some "Original query not found for retry"))],
        dispatched := false } := by
  rcases hm : dictFind store message_id with _ | inner
  · simp [retryAgentCall, hm]
  · have hs : dictFind inner sub_id = none := by simpa [hm] using h
    simp [retryAgentCall, hm, hs]

/-- C8 witness: a retry against an empty store. -/
theorem C8_retry_not_found_witness :
    retryAgentCall [] "m1" "rec-9" "sqlagent" "sess" (TaskOutcome.exn "x") (TaskOutcome.exn "x") =
      { messages := [WsMessage.result (mkScenarioResult "sess" "m1" "rec-9" "sqlagent"
          "" true (some "Original query not found for retry"))],
        dispatched := false } :=
  C8_retry_not_found [] "m1" "rec-9" "sqlagent" "sess" _ _ rfl

/-! ## Claim C1 -/

/-- C1 (code bug). process_scenario builds recommendation_texts as the
list of plain query STRINGS (line 54) and hands it to format_recommendation,
whose ScenarioRecommendation.recommendations field is typed
List[ScenarioCandidate]; pydantic rejects a str there, the generator always
yields five entries so the list is never empty, and the resulting
ValidationError lands in the top-level except: for EVERY query, session and
agent behaviour the orchestrator sends exactly one connection-level error
message — never a ScenarioRecommendation and never any ScenarioResult. The
schema, MessageFormatter tests and the (skipped) integration tests all
expect {sub_id, question, endpoint} candidate objects here, so the claim
matches the intent and the code is the slip. -/
theorem C1_recommendation_validation_error (svc : ScenarioServiceState)
    (query session_id message_id : String) (now : Nat) (sqlO toolO : Nat → TaskOutcome) :
    ∃ e, (processScenario svc query session_id message_id now sqlO toolO).messages =
      [WsMessage.connError session_id message_id e] := by
  have hlen := generate_length query (analyze query)
  obtain ⟨r, rest, hrecs⟩ : ∃ r rest, generate query (analyze query) = r :: rest := by
    cases hg : generate query (analyze query) with
    | nil => rw [hg] at hlen; simp at hlen
    | cons r rest => exact ⟨r, rest, rfl⟩
  refine ⟨"Input should be a valid dictionary or instance of ScenarioCandidate", ?_⟩
  simp only [processScenario, hrecs, List.map_cons, format_recommendation,
    validateCandidateList, validateCandidate]

/-! ## Claim C10 counterexample -/

def isResultMessage : WsMessage → Bool
  | .result _ => true
  | _ => false

def c10Svc : ScenarioServiceState :=
  { cache := mkQueryCache 300, use_cache := true, query_store := [] }

/-- C10 counterexample: a fresh service on a cache miss (the cache is
empty) with every agent call succeeding still sends NO ScenarioResult
message at all — the recommendation-validation failure of C1 aborts
process_scenario before the streaming loop — so the claimed rec-1..rec-5
result stream never happens end-to-end. -/
theorem C10_counterexample :
    (qcGet c10Svc.cache "compare a and b" (analyze "compare a and b").domain 0).1 = none ∧
    List.filter isResultMessage
      (processScenario c10Svc "compare a and b" "sess" "mid" 0 successOracle
        successOracle).messages = [] := by
  decide

end SimFrontend
